import Mathlib

/-!
Verification of `libs/hwui/jni/android_graphics_HardwareBufferRenderer.cpp`.

The file under study is JNI glue around the hwui rendering engine: it
builds a pre-rotation matrix from a buffer transform, forwards render
parameters to a `RenderProxy`, wraps a Java completion consumer into a
native callback, allocates the root render node, converts light alphas,
and exposes the native finalizer address.

The embedding below translates each function of the source file into a
Lean definition.  Engine components that the glue merely calls
(`RenderProxy`, `CanvasContext`, `GraphicsJNI`) are represented either
abstractly (as parameters) or, where a claim is about their documented
behaviour, by definitions explicitly marked `Modelled from the spec:`.

Scalar arithmetic is modelled over `ℚ`.  The only `SkScalar` values the
source produces are integers cast from `jint` and the entries of right-
angle rotation matrices; Skia's `setRotate` snaps the sines/cosines of
right angles to exact `0`/`±1` (`SkScalarSinSnapToZero`), so all float
computations involved are exact and the rational model coincides with
the float semantics on every input exercised here.
-/

/-- Affine part of a Skia `SkMatrix` (the functions in the source only
ever produce affine matrices: the perspective row stays `(0 0 1)`).
Row-major: `[scaleX skewX transX; skewY scaleY transY]`. -/
structure SkMatrix where
  scaleX : ℚ
  skewX  : ℚ
  transX : ℚ
  skewY  : ℚ
  scaleY : ℚ
  transY : ℚ
deriving DecidableEq, Repr

/-- Default-constructed `SkMatrix()`: the identity. -/
def SkMatrix.identity : SkMatrix := ⟨1, 0, 0, 0, 1, 0⟩

/-- Exact cosine of `d` degrees for the right angles used by the source
(Skia's `setRotate` snaps these to exact values). -/
def cosDeg (d : ℤ) : ℚ :=
  if d % 360 = 0 then 1
  else if d % 360 = 90 then 0
  else if d % 360 = 180 then -1
  else 0

/-- Exact sine of `d` degrees for the right angles used by the source. -/
def sinDeg (d : ℤ) : ℚ :=
  if d % 360 = 0 then 0
  else if d % 360 = 90 then 1
  else if d % 360 = 180 then 0
  else -1

/-- `SkMatrix::setRotate(degrees)` about the origin: `[c -s 0; s c 0]`. -/
def SkMatrix.setRotate (d : ℤ) : SkMatrix :=
  ⟨cosDeg d, -(sinDeg d), 0, sinDeg d, cosDeg d, 0⟩

/-- `SkMatrix::postTranslate(dx, dy)` on an affine matrix: the
translation is applied after the matrix, adding to the translation
column. -/
def SkMatrix.postTranslate (m : SkMatrix) (dx dy : ℚ) : SkMatrix :=
  { m with transX := m.transX + dx, transY := m.transY + dy }

/-- Application of an affine `SkMatrix` to a point (`SkMatrix::mapPoints`
for one point). -/
def SkMatrix.mapPoint (m : SkMatrix) (p : ℚ × ℚ) : ℚ × ℚ :=
  (m.scaleX * p.1 + m.skewX * p.2 + m.transX,
   m.skewY * p.1 + m.scaleY * p.2 + m.transY)

/-- General product of two affine matrices, `a * b` = apply `b` first,
then `a` (Skia `setConcat`). -/
def SkMatrix.concat (a b : SkMatrix) : SkMatrix :=
  ⟨a.scaleX * b.scaleX + a.skewX * b.skewY,
   a.scaleX * b.skewX + a.skewX * b.scaleY,
   a.scaleX * b.transX + a.skewX * b.transY + a.transX,
   a.skewY * b.scaleX + a.scaleY * b.skewY,
   a.skewY * b.skewX + a.scaleY * b.scaleY,
   a.skewY * b.transX + a.scaleY * b.transY + a.transY⟩

/-- Pure translation matrix. -/
def SkMatrix.translation (dx dy : ℚ) : SkMatrix := ⟨1, 0, dx, 0, 1, dy⟩

/-- Pure rotation matrix by `d` degrees about the origin. -/
def SkMatrix.rotation (d : ℤ) : SkMatrix :=
  ⟨cosDeg d, -(sinDeg d), 0, sinDeg d, cosDeg d, 0⟩

/-- Buffer-transform constants from `<android/native_window.h>`. -/
def ANATIVEWINDOW_TRANSFORM_IDENTITY : ℤ := 0

/-- Mirror-horizontal bit (an invalid value for this API). -/
def ANATIVEWINDOW_TRANSFORM_MIRROR_HORIZONTAL : ℤ := 1

/-- Mirror-vertical bit (an invalid value for this API). -/
def ANATIVEWINDOW_TRANSFORM_MIRROR_VERTICAL : ℤ := 2

/-- Rotate-90 transform constant (`0x04`). -/
def ANATIVEWINDOW_TRANSFORM_ROTATE_90 : ℤ := 4

/-- Rotate-180 transform constant (`MIRROR_HORIZONTAL | MIRROR_VERTICAL = 0x03`). -/
def ANATIVEWINDOW_TRANSFORM_ROTATE_180 : ℤ := 3

/-- Rotate-270 transform constant (`ROTATE_180 | ROTATE_90 = 0x07`). -/
def ANATIVEWINDOW_TRANSFORM_ROTATE_270 : ℤ := 7

/-- `createMatrixFromBufferTransform` together with the number of
`ALOGE` warning records the call emits.  Transcribes the `switch`:
the three rotation cases build `setRotate` + `postTranslate`; any other
value logs one warning and falls through to the `IDENTITY` case, which
leaves the default-constructed identity matrix. -/
def createMatrixFromBufferTransformLogged (width height : ℚ) (transform : ℤ) :
    SkMatrix × ℕ :=
  if transform = ANATIVEWINDOW_TRANSFORM_ROTATE_90 then
    ((SkMatrix.setRotate 90).postTranslate width 0, 0)
  else if transform = ANATIVEWINDOW_TRANSFORM_ROTATE_180 then
    ((SkMatrix.setRotate 180).postTranslate width height, 0)
  else if transform = ANATIVEWINDOW_TRANSFORM_ROTATE_270 then
    ((SkMatrix.setRotate 270).postTranslate 0 width, 0)
  else if transform = ANATIVEWINDOW_TRANSFORM_IDENTITY then
    (SkMatrix.identity, 0)
  else
    (SkMatrix.identity, 1)

/-- The matrix returned by `createMatrixFromBufferTransform` (the
warning log is a side effect invisible to the caller). -/
def createMatrixFromBufferTransform (width height : ℚ) (transform : ℤ) : SkMatrix :=
  (createMatrixFromBufferTransformLogged width height transform).1

/-! ### Geometry of the buffer transform (claims C1, C4) -/

/-- Corners of the physical buffer rectangle `[0,width] x [0,height]`,
counter-clockwise from the origin (y-down convention). -/
def physCorners (w h : ℚ) : List (ℚ × ℚ) := [(0, 0), (w, 0), (w, h), (0, h)]

/-- Width of the buffer's logical content rectangle: the 90- and
270-degree transforms swap the logical dimensions. -/
def logicalW (t : ℤ) (w h : ℚ) : ℚ :=
  if t = ANATIVEWINDOW_TRANSFORM_ROTATE_90 ∨ t = ANATIVEWINDOW_TRANSFORM_ROTATE_270
  then h else w

/-- Height of the buffer's logical content rectangle. -/
def logicalH (t : ℤ) (w h : ℚ) : ℚ :=
  if t = ANATIVEWINDOW_TRANSFORM_ROTATE_90 ∨ t = ANATIVEWINDOW_TRANSFORM_ROTATE_270
  then w else h

/-- Corners of the logical content rectangle, in the same circular
order as `physCorners`. -/
def logicalCorners (t : ℤ) (w h : ℚ) : List (ℚ × ℚ) :=
  [(0, 0), (logicalW t w h, 0), (logicalW t w h, logicalH t w h), (0, logicalH t w h)]

/-- How many positions the corner cycle is rotated by each transform
(one quarter-turn per 90 degrees). -/
def cornerShift (t : ℤ) : ℕ :=
  if t = ANATIVEWINDOW_TRANSFORM_ROTATE_90 then 1
  else if t = ANATIVEWINDOW_TRANSFORM_ROTATE_180 then 2
  else if t = ANATIVEWINDOW_TRANSFORM_ROTATE_270 then 3
  else 0

/-- Membership of a point in the physical rectangle `[0,w] x [0,h]`. -/
def inPhysRect (p : ℚ × ℚ) (w h : ℚ) : Prop :=
  0 ≤ p.1 ∧ p.1 ≤ w ∧ 0 ≤ p.2 ∧ p.2 ≤ h

/-- The property claimed of the transform builder: the matrix built for
transform `t` maps the four corners of the logical content rectangle
exactly onto the four corners of the physical rectangle in the
correspondingly rotated order, and maps no point of the logical
rectangle outside the physical rectangle. -/
def mapsContentOntoPhysical (t : ℤ) (w h : ℚ) : Prop :=
  ((logicalCorners t w h).map (createMatrixFromBufferTransform w h t).mapPoint
      = (physCorners w h).rotate (cornerShift t))
  ∧ ∀ x y : ℚ, 0 ≤ x → x ≤ logicalW t w h → 0 ≤ y → y ≤ logicalH t w h →
      inPhysRect ((createMatrixFromBufferTransform w h t).mapPoint (x, y)) w h

/-! ### Light alpha conversion (claim C2) -/

/-- C `uint8_t` cast of a floating-point value: truncation toward zero;
a truncated value outside `[0,255]` is undefined behaviour in C++
(`[conv.fpint]`), modelled as `none`. -/
def uint8OfFloat (q : ℚ) : Option ℤ :=
  let t : ℤ := if 0 ≤ q then ⌊q⌋ else -⌊-q⌋
  if 0 ≤ t ∧ t ≤ 255 then some t else none

/-- Stored alpha pair of
`android_graphics_HardwareBufferRenderer_setLightAlpha`: the source
computes `(uint8_t)(255 * ambientShadowAlpha)` and
`(uint8_t)(255 * spotShadowAlpha)` and hands them to
`RenderProxy::setLightAlpha`. -/
def android_graphics_HardwareBufferRenderer_setLightAlpha
    (ambientShadowAlpha spotShadowAlpha : ℚ) : Option (ℤ × ℤ) :=
  match uint8OfFloat (255 * ambientShadowAlpha), uint8OfFloat (255 * spotShadowAlpha) with
  | some a, some s => some (a, s)
  | _, _ => none

/-- The conversion the spec claims, written from the spec's words:
`round(clamp(value,0,1) * 255)`.  Kept separate from the source
transcription so the two can be compared. -/
def specLightAlphaByte (q : ℚ) : ℤ := round (min (max q 0) 1 * 255)

/-! ### Completion callback wrapper and render glue (claims C5, C6, C10) -/

/-- The native closure produced by `createRenderCallback`: it captures
exactly one durable global reference to the Java consumer object
(`JGlobalRefHolder` over `NewGlobalRef(releaseCallback)`).  Java
objects are modelled as opaque numeric identities. -/
structure RenderCallbackClosure where
  capturedGlobalRef : ℕ
deriving DecidableEq, Repr

/-- `createRenderCallback`: a null consumer yields a null callback
(`nullptr`, modelled `none`) and captures nothing; otherwise the
returned closure holds a global reference to the consumer. -/
def createRenderCallback (releaseCallback : Option ℕ) : Option RenderCallbackClosure :=
  match releaseCallback with
  | none => none
  | some cb => some ⟨cb⟩

/-- Observable native actions performed by the callback closure's body. -/
inductive NativeAction where
  | callInvokeRenderCallback (globalRef : ℕ) (fd status : ℤ)
  | closeFd (fd : ℤ)
deriving DecidableEq, Repr

/-- `android::base::unique_fd::release()`: returns the raw descriptor
and leaves the wrapper holding `-1`, so the wrapper's destructor will
not close it. -/
def uniqueFdRelease (fd : ℤ) : ℤ × ℤ := (fd, -1)

/-- Destructor of `android::base::unique_fd`: closes the descriptor it
still owns (a non-negative value), otherwise does nothing. -/
def uniqueFdDtorActions (fd : ℤ) : List NativeAction :=
  if 0 ≤ fd then [NativeAction.closeFd fd] else []

/-- Body of the closure returned by `createRenderCallback`, invoked by
the engine with a moved-in `unique_fd` and a status: it calls the static
Java method `invokeRenderCallback(globalRef, fd.release(), status)`,
and at scope exit the `unique_fd` destructor runs on what is left in
the wrapper. -/
def renderCallbackRun (cb : RenderCallbackClosure) (fd status : ℤ) : List NativeAction :=
  let released := uniqueFdRelease fd
  [NativeAction.callInvokeRenderCallback cb.capturedGlobalRef released.1 status]
    ++ uniqueFdDtorActions released.2

/-- The parameter pack `HardwareBufferRenderParams(matrix, colorSpace,
callback)` handed to `RenderProxy::setHardwareBufferRenderParams`.  The
resolved native color space is opaque to the glue and modelled as a
numeric descriptor. -/
structure HardwareBufferRenderParams where
  matrix : SkMatrix
  colorSpace : ℤ
  callback : Option RenderCallbackClosure
deriving DecidableEq

/-- The two `RenderProxy` operations the render glue performs, over an
abstract proxy state `σ`.  The engine behind them is outside the file
under study, so it is universally quantified in the theorems. -/
structure RenderEngine (σ : Type) where
  setHardwareBufferRenderParams : σ → HardwareBufferRenderParams → σ
  syncAndDrawFrame : σ → σ × ℤ

/-- `android_graphics_HardwareBufferRenderer_render`: builds the matrix
from `(width, height, transform)`, resolves the color space, stores the
render params (with the wrapped callback) on the proxy, then runs the
synchronous sync-and-draw step and returns its integer status. -/
def android_graphics_HardwareBufferRenderer_render {σ : Type}
    (E : RenderEngine σ) (getNativeColorSpace : ℤ → ℤ) (renderProxy : σ)
    (transform : ℤ) (width height : ℤ) (colorspacePtr : ℤ)
    (consumer : Option ℕ) : σ × ℤ :=
  let skWidth : ℚ := (width : ℚ)
  let skHeight : ℚ := (height : ℚ)
  let matrix := createMatrixFromBufferTransform skWidth skHeight transform
  let colorSpace := getNativeColorSpace colorspacePtr
  let proxy1 := E.setHardwareBufferRenderParams renderProxy
      ⟨matrix, colorSpace, createRenderCallback consumer⟩
  E.syncAndDrawFrame proxy1

/-- Trace alphabet of proxy calls, used to pin the order in which the
render glue drives the proxy. -/
inductive ProxyCall where
  | setParams (p : HardwareBufferRenderParams)
  | syncAndDrawFrame
deriving DecidableEq

/-- A trace-recording instantiation of the proxy operations: each call
is appended to a log; sync-and-draw returns the engine status `st`. -/
def traceEngine (st : ℤ) : RenderEngine (List ProxyCall) where
  setHardwareBufferRenderParams s p := s ++ [ProxyCall.setParams p]
  syncAndDrawFrame s := (s ++ [ProxyCall.syncAndDrawFrame], st)

/-! ### Root node creation (claim C8) -/

/-- The observable state of a `RootRenderNode` for this glue: its
strong reference count and debug name. -/
structure RootNodeState where
  strongCount : ℕ
  name : String
deriving DecidableEq, Repr

/-- Heap of native `RootRenderNode` allocations, addressed by `ℕ`. -/
structure NodeHeap where
  next : ℕ
  mem : ℕ → Option RootNodeState

/-- Allocation (`new RootRenderNode(...)`) returns a fresh address. -/
def allocNode (h : NodeHeap) (n : RootNodeState) : NodeHeap × ℕ :=
  ({ next := h.next + 1,
     mem := fun a => if a = h.next then some n else h.mem a }, h.next)

/-- `RefBase::incStrong`: bumps the strong count of the node at `a`. -/
def incStrong (h : NodeHeap) (a : ℕ) : NodeHeap :=
  { h with mem := fun b =>
      if b = a then (h.mem b).map (fun n => { n with strongCount := n.strongCount + 1 })
      else h.mem b }

/-- `RenderNode::setName`. -/
def setNodeName (h : NodeHeap) (a : ℕ) (s : String) : NodeHeap :=
  { h with mem := fun b =>
      if b = a then (h.mem b).map (fun n => { n with name := s })
      else h.mem b }

/-- Well-formed heap: nothing is allocated at or beyond `next`. -/
def NodeHeap.WF (h : NodeHeap) : Prop := ∀ a, h.next ≤ a → h.mem a = none

/-- `android_graphics_HardwareBufferRenderer_createRootNode`: allocates
a fresh `RootRenderNode`, calls `incStrong` on it, names it
`"RootRenderNode"` and returns its handle. -/
def android_graphics_HardwareBufferRenderer_createRootNode (h : NodeHeap) :
    NodeHeap × ℕ :=
  let alloc := allocNode h ⟨0, ""⟩
  let h1 := incStrong alloc.1 alloc.2
  let h2 := setNodeName h1 alloc.2 "RootRenderNode"
  (h2, alloc.2)

/-! ### Proxy destruction and the finalizer (claim C9) -/

/-- Observable state of a `RenderProxy` for destruction purposes. -/
structure ProxyState where
  live : Bool
  bufferBound : Bool
  holdsRootRef : Bool
  rendered : Bool
deriving DecidableEq, Repr

/-- Modelled from the spec: the `RenderProxy` destructor (the body of
`delete proxy`; `RenderProxy` itself is not under `src/`).  Per §4.3 it
releases the buffer binding and the root reference and moves the proxy
to DESTROYED; destroying a dead proxy is a fatal usage error (`none`). -/
def renderProxyDtor (p : ProxyState) : Option ProxyState :=
  if p.live
  then some { live := false, bufferBound := false, holdsRootRef := false,
              rendered := p.rendered }
  else none

/-- `HardwareBufferRenderer_destroy(renderProxy)`: `delete proxy`. -/
def HardwareBufferRenderer_destroy (p : ProxyState) : Option ProxyState :=
  renderProxyDtor p

/-- The native routines whose addresses the glue can hand out. -/
inductive NativeFinalizerAddr where
  | hardwareBufferRendererDestroy
deriving DecidableEq, Repr

/-- `android_graphics_HardwareBufferRenderer_getFinalizer` returns the
address of `HardwareBufferRenderer_destroy`. -/
def android_graphics_HardwareBufferRenderer_getFinalizer : NativeFinalizerAddr :=
  NativeFinalizerAddr.hardwareBufferRendererDestroy

/-- Invoking the routine a finalizer address denotes on a proxy. -/
def invokeFinalizer : NativeFinalizerAddr → ProxyState → Option ProxyState
  | NativeFinalizerAddr.hardwareBufferRendererDestroy, p =>
      HardwareBufferRenderer_destroy p

/-- The explicit destroy operation written from the spec's words
(§4.3 `destroy()`): releases the buffer binding and root reference and
transitions to DESTROYED; valid only on a live proxy.  Kept separate
from the source-side path so the two can be compared. -/
def specExplicitDestroy (p : ProxyState) : Option ProxyState :=
  if p.live
  then some { live := false, bufferBound := false, holdsRootRef := false,
              rendered := p.rendered }
  else none

/-! ### Completion dispatch (claim C7) -/

/-- Events observable around frame completion. -/
inductive CompletionEv where
  | submit (frame : ℕ) (sinkSupplied : Bool)
  | fenceValid (frame : ℕ)
  | invoke (frame : ℕ) (fd status : ℤ) (onEngineThread : Bool)
deriving DecidableEq, Repr

/-- One render request: whether a completion sink was supplied, and the
release fence / status the engine will deliver for that frame. -/
structure FrameReq where
  sinkSupplied : Bool
  fd : ℤ
  status : ℤ
deriving DecidableEq, Repr

/-- Modelled from the spec: the engine-side completion dispatch for one
frame (`RenderProxy`/`CanvasContext`, not under `src/`).  Per §4.4/§5
the engine submits the frame, the GPU finishes and the release fence
becomes valid, and then — only for a frame that supplied a sink — the
wrapped callback is invoked exactly once, on an engine-internal
thread, with `(releaseFenceFd, status)`. -/
def frameCompletionEvs (i : ℕ) (r : FrameReq) : List CompletionEv :=
  [CompletionEv.submit i r.sinkSupplied, CompletionEv.fenceValid i]
    ++ (if r.sinkSupplied then [CompletionEv.invoke i r.fd r.status true] else [])

/-- Modelled from the spec: the completion event trace of a sequence of
render requests on one proxy, frames numbered from `i`. -/
def runCompletion : ℕ → List FrameReq → List CompletionEv
  | _, [] => []
  | i, r :: rest => frameCompletionEvs i r ++ runCompletion (i + 1) rest

/-- Whether an event is an invocation of frame `f`'s callback. -/
def isInvokeFor (f : ℕ) : CompletionEv → Bool
  | CompletionEv.invoke g _ _ _ => g = f
  | _ => false

/-! ### Helper lemmas -/

/-- Evaluation of the builder at `IDENTITY`. -/
theorem createMatrix_id_eval (w h : ℚ) :
    createMatrixFromBufferTransform w h ANATIVEWINDOW_TRANSFORM_IDENTITY
      = ⟨1, 0, 0, 0, 1, 0⟩ := by
  norm_num [createMatrixFromBufferTransform, createMatrixFromBufferTransformLogged,
    ANATIVEWINDOW_TRANSFORM_ROTATE_90, ANATIVEWINDOW_TRANSFORM_ROTATE_180,
    ANATIVEWINDOW_TRANSFORM_ROTATE_270, ANATIVEWINDOW_TRANSFORM_IDENTITY,
    SkMatrix.identity]

/-- Evaluation of the builder at `ROTATE_90`. -/
theorem createMatrix_rot90_eval (w h : ℚ) :
    createMatrixFromBufferTransform w h ANATIVEWINDOW_TRANSFORM_ROTATE_90
      = ⟨0, -1, w, 1, 0, 0⟩ := by
  norm_num [createMatrixFromBufferTransform, createMatrixFromBufferTransformLogged,
    ANATIVEWINDOW_TRANSFORM_ROTATE_90, SkMatrix.setRotate, SkMatrix.postTranslate,
    cosDeg, sinDeg]

/-- Evaluation of the builder at `ROTATE_180`. -/
theorem createMatrix_rot180_eval (w h : ℚ) :
    createMatrixFromBufferTransform w h ANATIVEWINDOW_TRANSFORM_ROTATE_180
      = ⟨-1, 0, w, 0, -1, h⟩ := by
  norm_num [createMatrixFromBufferTransform, createMatrixFromBufferTransformLogged,
    ANATIVEWINDOW_TRANSFORM_ROTATE_90, ANATIVEWINDOW_TRANSFORM_ROTATE_180,
    SkMatrix.setRotate, SkMatrix.postTranslate, cosDeg, sinDeg]

/-- Evaluation of the builder at `ROTATE_270`: note the translation is
`(0, width)`. -/
theorem createMatrix_rot270_eval (w h : ℚ) :
    createMatrixFromBufferTransform w h ANATIVEWINDOW_TRANSFORM_ROTATE_270
      = ⟨0, 1, 0, -1, 0, w⟩ := by
  norm_num [createMatrixFromBufferTransform, createMatrixFromBufferTransformLogged,
    ANATIVEWINDOW_TRANSFORM_ROTATE_90, ANATIVEWINDOW_TRANSFORM_ROTATE_180,
    ANATIVEWINDOW_TRANSFORM_ROTATE_270, SkMatrix.setRotate, SkMatrix.postTranslate,
    cosDeg, sinDeg]

/-! ### Claims -/

/-- C4: for every width and height the transform builder constructs, for
`ROTATE_90`, a 90-degree rotation about the origin followed by a
translation of `(+width, 0)`; for `ROTATE_180`, a 180-degree rotation
followed by a translation of `(+width, +height)`; for `ROTATE_270`, a
270-degree rotation followed by a translation of `(0, +width)`; and for
`IDENTITY`, the identity matrix.  Composition is the general affine
product `SkMatrix.concat`, translation applied after the rotation. -/
theorem c4_matrix_construction (w h : ℚ) :
    createMatrixFromBufferTransform w h ANATIVEWINDOW_TRANSFORM_ROTATE_90
      = (SkMatrix.translation w 0).concat (SkMatrix.rotation 90)
  ∧ createMatrixFromBufferTransform w h ANATIVEWINDOW_TRANSFORM_ROTATE_180
      = (SkMatrix.translation w h).concat (SkMatrix.rotation 180)
  ∧ createMatrixFromBufferTransform w h ANATIVEWINDOW_TRANSFORM_ROTATE_270
      = (SkMatrix.translation 0 w).concat (SkMatrix.rotation 270)
  ∧ createMatrixFromBufferTransform w h ANATIVEWINDOW_TRANSFORM_IDENTITY
      = SkMatrix.identity := by
  refine ⟨?_, ?_, ?_, ?_⟩ <;>
    norm_num [createMatrixFromBufferTransform, createMatrixFromBufferTransformLogged,
      ANATIVEWINDOW_TRANSFORM_ROTATE_90, ANATIVEWINDOW_TRANSFORM_ROTATE_180,
      ANATIVEWINDOW_TRANSFORM_ROTATE_270, ANATIVEWINDOW_TRANSFORM_IDENTITY,
      SkMatrix.setRotate, SkMatrix.postTranslate, SkMatrix.identity,
      SkMatrix.concat, SkMatrix.translation, SkMatrix.rotation, cosDeg, sinDeg]

/-- C3: for every orientation value outside the four valid transforms
and every width and height, the builder returns the identity matrix and
emits exactly one warning log record, and the render call proceeds with
the identity transform, returning the engine's status (no error is
surfaced). -/
theorem c3_invalid_transform_fallback (t : ℤ)
    (h90 : t ≠ ANATIVEWINDOW_TRANSFORM_ROTATE_90)
    (h180 : t ≠ ANATIVEWINDOW_TRANSFORM_ROTATE_180)
    (h270 : t ≠ ANATIVEWINDOW_TRANSFORM_ROTATE_270)
    (hid : t ≠ ANATIVEWINDOW_TRANSFORM_IDENTITY) :
    (∀ w h : ℚ, createMatrixFromBufferTransformLogged w h t = (SkMatrix.identity, 1))
  ∧ (∀ (σ : Type) (E : RenderEngine σ) (getNativeColorSpace : ℤ → ℤ) (proxy : σ)
      (width height colorspacePtr : ℤ) (consumer : Option ℕ),
      android_graphics_HardwareBufferRenderer_render E getNativeColorSpace proxy
          t width height colorspacePtr consumer
        = E.syncAndDrawFrame (E.setHardwareBufferRenderParams proxy
            ⟨SkMatrix.identity, getNativeColorSpace colorspacePtr,
             createRenderCallback consumer⟩)) := by
  have hbase : ∀ w h : ℚ,
      createMatrixFromBufferTransformLogged w h t = (SkMatrix.identity, 1) := by
    intro w h
    unfold createMatrixFromBufferTransformLogged
    rw [if_neg h90, if_neg h180, if_neg h270, if_neg hid]
  refine ⟨hbase, ?_⟩
  intro σ E g proxy width height p consumer
  simp only [android_graphics_HardwareBufferRenderer_render,
    createMatrixFromBufferTransform, hbase]

/-- Witness for `c3_invalid_transform_fallback` at the concrete invalid
value `MIRROR_VERTICAL = 2`. -/
theorem c3_witness :
    ((2 : ℤ) ≠ ANATIVEWINDOW_TRANSFORM_ROTATE_90
      ∧ (2 : ℤ) ≠ ANATIVEWINDOW_TRANSFORM_IDENTITY)
  ∧ createMatrixFromBufferTransformLogged 5 3 2 = (SkMatrix.identity, 1) :=
  ⟨⟨by decide, by decide⟩,
   (c3_invalid_transform_fallback 2 (by decide) (by decide) (by decide) (by decide)).1 5 3⟩

/-- C5: a render call first sets the proxy's render parameters to
exactly the matrix built from `(width, height, transform)`, the
resolved native color space, and the wrapped completion callback, and
only then invokes the synchronous sync-and-draw step, whose integer
status it returns to the caller (as a value, not an exception): this
holds for every engine implementation of the two proxy operations, and
the trace-recording engine shows the exact call order. -/
theorem c5_render_params_then_sync :
    (∀ (σ : Type) (E : RenderEngine σ) (getNativeColorSpace : ℤ → ℤ) (proxy : σ)
        (transform width height colorspacePtr : ℤ) (consumer : Option ℕ),
      android_graphics_HardwareBufferRenderer_render E getNativeColorSpace proxy
          transform width height colorspacePtr consumer
        = E.syncAndDrawFrame (E.setHardwareBufferRenderParams proxy
            ⟨createMatrixFromBufferTransform (width : ℚ) (height : ℚ) transform,
             getNativeColorSpace colorspacePtr, createRenderCallback consumer⟩))
  ∧ (∀ (st : ℤ) (getNativeColorSpace : ℤ → ℤ)
        (transform width height colorspacePtr : ℤ) (consumer : Option ℕ),
      android_graphics_HardwareBufferRenderer_render (traceEngine st)
          getNativeColorSpace [] transform width height colorspacePtr consumer
        = ([ProxyCall.setParams
              ⟨createMatrixFromBufferTransform (width : ℚ) (height : ℚ) transform,
               getNativeColorSpace colorspacePtr, createRenderCallback consumer⟩,
            ProxyCall.syncAndDrawFrame], st)) := by
  exact ⟨fun σ E g proxy t w h p c => rfl, fun st g t w h p c => rfl⟩

/-- C6: when the completion sink argument is null the callback wrapper
returns null — no notification closure is created and no caller-object
reference is captured — while the render itself still stores the
parameters (with a null callback) and returns the engine's status. -/
theorem c6_null_sink_noop :
    createRenderCallback none = none
  ∧ (∀ (σ : Type) (E : RenderEngine σ) (getNativeColorSpace : ℤ → ℤ) (proxy : σ)
      (transform width height colorspacePtr : ℤ),
      android_graphics_HardwareBufferRenderer_render E getNativeColorSpace proxy
          transform width height colorspacePtr none
        = E.syncAndDrawFrame (E.setHardwareBufferRenderParams proxy
            ⟨createMatrixFromBufferTransform (width : ℚ) (height : ℚ) transform,
             getNativeColorSpace colorspacePtr, none⟩)) := by
  exact ⟨rfl, fun σ E g proxy t w h p => rfl⟩

/-- C10: the wrapped callback, when invoked with a release-fence
descriptor and a status, releases the descriptor out of the `unique_fd`
wrapper and passes its raw integer value to the caller's sink; it never
closes the descriptor itself (no `closeFd` action occurs), so after
invocation the native side holds no reference to the fence. -/
theorem c10_fence_ownership_transfer (cb : RenderCallbackClosure) (fd status : ℤ) :
    renderCallbackRun cb fd status
      = [NativeAction.callInvokeRenderCallback cb.capturedGlobalRef fd status]
  ∧ ∀ f : ℤ, NativeAction.closeFd f ∉ renderCallbackRun cb fd status := by
  have hrun : renderCallbackRun cb fd status
      = [NativeAction.callInvokeRenderCallback cb.capturedGlobalRef fd status] := by
    norm_num [renderCallbackRun, uniqueFdRelease, uniqueFdDtorActions]
  refine ⟨hrun, ?_⟩
  intro f
  rw [hrun]
  simp

/-- Rotation of a four-element list by one position. -/
theorem rotate_one_of_four (a b c d : ℚ × ℚ) :
    ([a, b, c, d].rotate 1) = [b, c, d, a] := by
  norm_num [List.rotate]

/-- Rotation of a four-element list by two positions. -/
theorem rotate_two_of_four (a b c d : ℚ × ℚ) :
    ([a, b, c, d].rotate 2) = [c, d, a, b] := by
  norm_num [List.rotate]

/-- Rotation of a four-element list by three positions. -/
theorem rotate_three_of_four (a b c d : ℚ × ℚ) :
    ([a, b, c, d].rotate 3) = [d, a, b, c] := by
  norm_num [List.rotate]

/-- C1 (amended): for orientations `IDENTITY`, `ROTATE_90` and
`ROTATE_180` and every positive width and height, the built matrix maps
the four corners of the buffer's logical content rectangle exactly onto
the four corners of the physical rectangle `[0,width] x [0,height]` in
the correspondingly rotated order, mapping no point of the logical
rectangle outside; for `ROTATE_270` the same holds when
`width = height` (and fails otherwise, see the counterexample). -/
theorem c1_corners_amended (w h : ℚ) (hw : 0 < w) (hh : 0 < h) :
    mapsContentOntoPhysical ANATIVEWINDOW_TRANSFORM_IDENTITY w h
  ∧ mapsContentOntoPhysical ANATIVEWINDOW_TRANSFORM_ROTATE_90 w h
  ∧ mapsContentOntoPhysical ANATIVEWINDOW_TRANSFORM_ROTATE_180 w h
  ∧ (w = h → mapsContentOntoPhysical ANATIVEWINDOW_TRANSFORM_ROTATE_270 w h) := by
  refine ⟨⟨?_, ?_⟩, ⟨?_, ?_⟩, ⟨?_, ?_⟩, fun hwh => ⟨?_, ?_⟩⟩
  · rw [createMatrix_id_eval]
    norm_num [logicalCorners, logicalW, logicalH, physCorners, cornerShift,
      SkMatrix.mapPoint, ANATIVEWINDOW_TRANSFORM_ROTATE_90,
      ANATIVEWINDOW_TRANSFORM_ROTATE_180, ANATIVEWINDOW_TRANSFORM_ROTATE_270,
      ANATIVEWINDOW_TRANSFORM_IDENTITY, List.rotate_zero]
  · intro x y hx hxw hy hyh
    rw [createMatrix_id_eval]
    norm_num [logicalW, logicalH, ANATIVEWINDOW_TRANSFORM_ROTATE_90,
      ANATIVEWINDOW_TRANSFORM_ROTATE_270, ANATIVEWINDOW_TRANSFORM_IDENTITY]
        at hxw hyh
    norm_num [inPhysRect, SkMatrix.mapPoint]
    exact ⟨hx, hxw, hy, hyh⟩
  · rw [createMatrix_rot90_eval]
    norm_num [logicalCorners, logicalW, logicalH, physCorners, cornerShift,
      SkMatrix.mapPoint, ANATIVEWINDOW_TRANSFORM_ROTATE_90,
      ANATIVEWINDOW_TRANSFORM_ROTATE_180, ANATIVEWINDOW_TRANSFORM_ROTATE_270,
      ANATIVEWINDOW_TRANSFORM_IDENTITY, rotate_one_of_four]
  · intro x y hx hxw hy hyh
    rw [createMatrix_rot90_eval]
    norm_num [logicalW, logicalH, ANATIVEWINDOW_TRANSFORM_ROTATE_90,
      ANATIVEWINDOW_TRANSFORM_ROTATE_270] at hxw hyh
    norm_num [inPhysRect, SkMatrix.mapPoint]
    refine ⟨by linarith, by linarith, hx, hxw⟩
  · rw [createMatrix_rot180_eval]
    norm_num [logicalCorners, logicalW, logicalH, physCorners, cornerShift,
      SkMatrix.mapPoint, ANATIVEWINDOW_TRANSFORM_ROTATE_90,
      ANATIVEWINDOW_TRANSFORM_ROTATE_180, ANATIVEWINDOW_TRANSFORM_ROTATE_270,
      ANATIVEWINDOW_TRANSFORM_IDENTITY, rotate_two_of_four]
  · intro x y hx hxw hy hyh
    rw [createMatrix_rot180_eval]
    norm_num [logicalW, logicalH, ANATIVEWINDOW_TRANSFORM_ROTATE_90,
      ANATIVEWINDOW_TRANSFORM_ROTATE_270, ANATIVEWINDOW_TRANSFORM_ROTATE_180]
        at hxw hyh
    norm_num [inPhysRect, SkMatrix.mapPoint]
    refine ⟨by linarith, by linarith, by linarith, by linarith⟩
  · subst hwh
    rw [createMatrix_rot270_eval]
    norm_num [logicalCorners, logicalW, logicalH, physCorners, cornerShift,
      SkMatrix.mapPoint, ANATIVEWINDOW_TRANSFORM_ROTATE_90,
      ANATIVEWINDOW_TRANSFORM_ROTATE_180, ANATIVEWINDOW_TRANSFORM_ROTATE_270,
      ANATIVEWINDOW_TRANSFORM_IDENTITY, rotate_three_of_four]
  · subst hwh
    intro x y hx hxw hy hyh
    rw [createMatrix_rot270_eval]
    norm_num [logicalW, logicalH, ANATIVEWINDOW_TRANSFORM_ROTATE_90,
      ANATIVEWINDOW_TRANSFORM_ROTATE_270] at hxw hyh
    norm_num [inPhysRect, SkMatrix.mapPoint]
    refine ⟨hy, hyh, by linarith, by linarith⟩

/-- C1 counterexample: for `ROTATE_270` with `width = 2`, `height = 1`,
the logical origin corner is mapped to `(0, 2)`, which lies outside the
physical rectangle `[0,2] x [0,1]`, so the claimed corner-onto-corner
mapping fails for `ROTATE_270`. -/
theorem c1_counterexample :
    (createMatrixFromBufferTransform 2 1 ANATIVEWINDOW_TRANSFORM_ROTATE_270).mapPoint
        (0, 0) = (0, 2)
  ∧ ¬ mapsContentOntoPhysical ANATIVEWINDOW_TRANSFORM_ROTATE_270 2 1 := by
  constructor
  · rw [createMatrix_rot270_eval]
    norm_num [SkMatrix.mapPoint]
  · intro hc
    have h2 := hc.2 0 0 le_rfl
      (by norm_num [logicalW, ANATIVEWINDOW_TRANSFORM_ROTATE_90,
        ANATIVEWINDOW_TRANSFORM_ROTATE_270])
      le_rfl
      (by norm_num [logicalH, ANATIVEWINDOW_TRANSFORM_ROTATE_90,
        ANATIVEWINDOW_TRANSFORM_ROTATE_270])
    rw [createMatrix_rot270_eval] at h2
    norm_num [inPhysRect, SkMatrix.mapPoint] at h2

/-- Witness for `c1_corners_amended` at concrete sizes `2 x 1` (and
`2 x 2` for the `ROTATE_270` conjunct). -/
theorem c1_witness :
    (0 : ℚ) < 2 ∧ (0 : ℚ) < 1
  ∧ mapsContentOntoPhysical ANATIVEWINDOW_TRANSFORM_IDENTITY 2 1
  ∧ mapsContentOntoPhysical ANATIVEWINDOW_TRANSFORM_ROTATE_90 2 1
  ∧ mapsContentOntoPhysical ANATIVEWINDOW_TRANSFORM_ROTATE_180 2 1
  ∧ mapsContentOntoPhysical ANATIVEWINDOW_TRANSFORM_ROTATE_270 2 2 :=
  ⟨by norm_num, by norm_num,
   (c1_corners_amended 2 1 (by norm_num) (by norm_num)).1,
   (c1_corners_amended 2 1 (by norm_num) (by norm_num)).2.1,
   (c1_corners_amended 2 1 (by norm_num) (by norm_num)).2.2.1,
   (c1_corners_amended 2 2 (by norm_num) (by norm_num)).2.2.2 rfl⟩

/-- The `uint8_t` cast on a value already in `[0, 255]` is the floor. -/
theorem uint8OfFloat_of_mem (q : ℚ) (h0 : 0 ≤ q) (h255 : q ≤ 255) :
    uint8OfFloat q = some ⌊q⌋ := by
  have hf0 : (0 : ℤ) ≤ ⌊q⌋ := Int.floor_nonneg.mpr h0
  have hf255 : ⌊q⌋ ≤ 255 := by
    have := Int.floor_le_floor h255
    simpa using this
  simp only [uint8OfFloat, if_pos h0]
  rw [if_pos ⟨hf0, hf255⟩]

/-- C2 (amended): `setLightAlpha` stores each alpha as the `uint8_t`
cast of `255 * value` — truncation toward zero, with no clamping and no
rounding; in exact arithmetic `setLightAlpha(0.0, 1.0)` stores
`(0, 255)` and `setLightAlpha(0.5, 0.5)` stores `(127, 127)` (both
claimed example pairs are as the claim allows, but the general
`round(clamp(value,0,1) * 255)` formula is not what the code computes,
see the counterexample). -/
theorem c2_alpha_truncation :
    (∀ a s : ℚ, 0 ≤ a → a ≤ 1 → 0 ≤ s → s ≤ 1 →
      android_graphics_HardwareBufferRenderer_setLightAlpha a s
        = some (⌊255 * a⌋, ⌊255 * s⌋))
  ∧ android_graphics_HardwareBufferRenderer_setLightAlpha 0 1 = some (0, 255)
  ∧ android_graphics_HardwareBufferRenderer_setLightAlpha (1/2) (1/2)
      = some (127, 127) := by
  have hmain : ∀ a s : ℚ, 0 ≤ a → a ≤ 1 → 0 ≤ s → s ≤ 1 →
      android_graphics_HardwareBufferRenderer_setLightAlpha a s
        = some (⌊255 * a⌋, ⌊255 * s⌋) := by
    intro a s ha0 ha1 hs0 hs1
    have hca : uint8OfFloat (255 * a) = some ⌊255 * a⌋ :=
      uint8OfFloat_of_mem _ (by positivity) (by nlinarith)
    have hcs : uint8OfFloat (255 * s) = some ⌊255 * s⌋ :=
      uint8OfFloat_of_mem _ (by positivity) (by nlinarith)
    simp [android_graphics_HardwareBufferRenderer_setLightAlpha, hca, hcs]
  refine ⟨hmain, ?_, ?_⟩
  · rw [hmain 0 1 le_rfl zero_le_one zero_le_one le_rfl]
    norm_num
  · rw [hmain (1/2) (1/2) (by norm_num) (by norm_num) (by norm_num) (by norm_num)]
    norm_num [Int.floor_eq_iff]

/-- C2 counterexample: at the exactly-representable input `511/512`,
the code stores `⌊255 * 511/512⌋ = 254` while the claimed
`round(clamp(value,0,1) * 255)` formula gives `255`. -/
theorem c2_counterexample :
    android_graphics_HardwareBufferRenderer_setLightAlpha (511/512) 1
      = some (254, 255)
  ∧ specLightAlphaByte (511/512) = 255
  ∧ android_graphics_HardwareBufferRenderer_setLightAlpha (511/512) 1
      ≠ some (specLightAlphaByte (511/512), specLightAlphaByte 1) := by
  have hca : uint8OfFloat (255 * (511/512 : ℚ)) = some 254 := by
    rw [uint8OfFloat_of_mem _ (by norm_num) (by norm_num)]
    norm_num [Int.floor_eq_iff]
  have hcs : uint8OfFloat (255 : ℚ) = some 255 := by
    rw [uint8OfFloat_of_mem _ (by norm_num) (by norm_num)]
    norm_num
  have hstore : android_graphics_HardwareBufferRenderer_setLightAlpha (511/512) 1
      = some (254, 255) := by
    simp [android_graphics_HardwareBufferRenderer_setLightAlpha, hca, hcs]
  have hspec : specLightAlphaByte (511/512) = 255 := by
    have : min (max (511/512 : ℚ) 0) 1 = 511/512 := by norm_num
    rw [specLightAlphaByte, this, round_eq]
    norm_num [Int.floor_eq_iff]
  refine ⟨hstore, hspec, ?_⟩
  rw [hstore, hspec]
  intro hcontra
  simp at hcontra

/-- Witness for `c2_alpha_truncation` at the concrete in-range input
pair `(1/4, 3/4)`. -/
theorem c2_witness :
    android_graphics_HardwareBufferRenderer_setLightAlpha (1/4) (3/4)
      = some (63, 191) := by
  rw [c2_alpha_truncation.1 (1/4) (3/4) (by norm_num) (by norm_num) (by norm_num)
    (by norm_num)]
  norm_num [Int.floor_eq_iff]

/-- C8: on any well-formed heap, `createRootNode` allocates a fresh
root node (its handle was unmapped before the call), increments its
strong reference count to `1` before returning (the node survives
independently of any managed wrapper), names it, preserves heap
well-formedness, and a second call returns a handle to a distinct
node. -/
theorem c8_createRootNode_fresh (h : NodeHeap) (hWF : h.WF) :
    h.mem (android_graphics_HardwareBufferRenderer_createRootNode h).2 = none
  ∧ (android_graphics_HardwareBufferRenderer_createRootNode h).1.mem
      (android_graphics_HardwareBufferRenderer_createRootNode h).2
      = some ⟨1, "RootRenderNode"⟩
  ∧ (android_graphics_HardwareBufferRenderer_createRootNode h).1.WF
  ∧ (android_graphics_HardwareBufferRenderer_createRootNode
        (android_graphics_HardwareBufferRenderer_createRootNode h).1).2
      ≠ (android_graphics_HardwareBufferRenderer_createRootNode h).2 := by
  refine ⟨hWF h.next le_rfl, ?_, ?_, ?_⟩
  · simp [android_graphics_HardwareBufferRenderer_createRootNode, allocNode,
      incStrong, setNodeName]
  · intro a ha
    simp only [android_graphics_HardwareBufferRenderer_createRootNode, allocNode,
      incStrong, setNodeName] at ha ⊢
    have hne : a ≠ h.next := by omega
    simp only [if_neg hne]
    exact hWF a (by omega)
  · simp [android_graphics_HardwareBufferRenderer_createRootNode, allocNode,
      incStrong, setNodeName]

/-- Witness for `c8_createRootNode_fresh` on the empty heap. -/
theorem c8_witness :
    NodeHeap.WF ⟨0, fun _ => none⟩
  ∧ ((⟨0, fun _ => none⟩ : NodeHeap).mem
      (android_graphics_HardwareBufferRenderer_createRootNode
        ⟨0, fun _ => none⟩).2 = none
  ∧ (android_graphics_HardwareBufferRenderer_createRootNode
        (⟨0, fun _ => none⟩ : NodeHeap)).1.mem
      (android_graphics_HardwareBufferRenderer_createRootNode
        (⟨0, fun _ => none⟩ : NodeHeap)).2
      = some ⟨1, "RootRenderNode"⟩
  ∧ (android_graphics_HardwareBufferRenderer_createRootNode
        (⟨0, fun _ => none⟩ : NodeHeap)).1.WF
  ∧ (android_graphics_HardwareBufferRenderer_createRootNode
        (android_graphics_HardwareBufferRenderer_createRootNode
          (⟨0, fun _ => none⟩ : NodeHeap)).1).2
      ≠ (android_graphics_HardwareBufferRenderer_createRootNode
          (⟨0, fun _ => none⟩ : NodeHeap)).2) :=
  ⟨fun _ _ => rfl, c8_createRootNode_fresh ⟨0, fun _ => none⟩ (fun _ _ => rfl)⟩

/-- C9: the address returned by `getFinalizer` identifies
`HardwareBufferRenderer_destroy`, whose invocation on a proxy has
exactly the effect of the explicit destroy operation of §4.3 (destroy
the proxy, release its buffer binding and root reference), and it
succeeds on every live proxy — in particular one on which render was
never called. -/
theorem c9_finalizer_matches_destroy :
    (∀ p : ProxyState,
      invokeFinalizer android_graphics_HardwareBufferRenderer_getFinalizer p
        = specExplicitDestroy p)
  ∧ (∀ p : ProxyState, p.live = true →
      ∃ q, invokeFinalizer android_graphics_HardwareBufferRenderer_getFinalizer p
          = some q
        ∧ q.live = false ∧ q.bufferBound = false ∧ q.holdsRootRef = false) := by
  constructor
  · intro p
    rfl
  · intro p hp
    refine ⟨⟨false, false, false, p.rendered⟩, ?_, rfl, rfl, rfl⟩
    simp [invokeFinalizer, android_graphics_HardwareBufferRenderer_getFinalizer,
      HardwareBufferRenderer_destroy, renderProxyDtor, hp]

/-- Witness for `c9_finalizer_matches_destroy` on a live, never-rendered
proxy. -/
theorem c9_witness :
    (⟨true, true, true, false⟩ : ProxyState).live = true
  ∧ ∃ q, invokeFinalizer android_graphics_HardwareBufferRenderer_getFinalizer
        ⟨true, true, true, false⟩ = some q
      ∧ q.live = false ∧ q.bufferBound = false ∧ q.holdsRootRef = false :=
  ⟨rfl, c9_finalizer_matches_destroy.2 ⟨true, true, true, false⟩ rfl⟩

/-- Whether an event is an invocation of frame `f`'s callback (as a
proposition). -/
def IsInvokeFor (f : ℕ) : CompletionEv → Prop
  | CompletionEv.invoke g _ _ _ => g = f
  | _ => False

/-- No event of a completion run starting at frame `i` invokes a frame
numbered below `i`. -/
theorem runCompletion_no_early_invoke (l : List FrameReq) :
    ∀ i f, f < i → ∀ e ∈ runCompletion i l, ¬ IsInvokeFor f e := by
  induction l with
  | nil =>
    intro i f _ e he
    simp [runCompletion] at he
  | cons r rest ih =>
    intro i f hf e he
    rw [runCompletion] at he
    rcases List.mem_append.1 he with h1 | h2
    · rw [frameCompletionEvs] at h1
      rcases List.mem_append.1 h1 with h3 | h4
      · simp only [List.mem_cons, List.mem_singleton] at h3
        rcases h3 with rfl | h3
        · simp [IsInvokeFor]
        · rcases h3 with rfl | h3
          · simp [IsInvokeFor]
          · simp at h3
      · revert h4
        split
        · intro h4
          simp only [List.mem_singleton] at h4
          subst h4
          simp only [IsInvokeFor]
          omega
        · intro h4
          simp at h4
    · exact ih (i + 1) f (by omega) e h2

/-- Positioned form of the completion guarantee, frames numbered from
`i`: the `k`-th request, when it supplies a sink, gives rise to exactly
one invocation event, placed after that frame's fence-valid event. -/
theorem runCompletion_invoke_unique (l : List FrameReq) :
    ∀ (i k : ℕ) (r : FrameReq), l.get? k = some r → r.sinkSupplied = true →
      ∃ pre post,
        runCompletion i l
            = pre ++ CompletionEv.invoke (i + k) r.fd r.status true :: post
        ∧ CompletionEv.fenceValid (i + k) ∈ pre
        ∧ (∀ e ∈ pre, ¬ IsInvokeFor (i + k) e)
        ∧ (∀ e ∈ post, ¬ IsInvokeFor (i + k) e) := by
  induction l with
  | nil =>
    intro i k r hk
    simp at hk
  | cons r0 rest ih =>
    intro i k r hk hs
    cases k with
    | zero =>
      have hr : r0 = r := by simpa using hk
      subst hr
      refine ⟨[CompletionEv.submit i true, CompletionEv.fenceValid i],
        runCompletion (i + 1) rest, ?_, ?_, ?_, ?_⟩
      · rw [runCompletion, frameCompletionEvs, hs]
        simp
      · simp
      · intro e he
        simp only [List.mem_cons, List.mem_singleton] at he
        rcases he with rfl | he
        · simp [IsInvokeFor]
        · rcases he with rfl | he
          · simp [IsInvokeFor]
          · simp at he
      · intro e he
        exact runCompletion_no_early_invoke rest (i + 1) (i + 0) (by omega) e he
    | succ k1 =>
      obtain ⟨pre, post, heq, hmem, hpre, hpost⟩ :=
        ih (i + 1) k1 r (by simpa using hk) hs
      have harith : i + 1 + k1 = i + (k1 + 1) := by omega
      rw [harith] at heq hmem hpre hpost
      refine ⟨frameCompletionEvs i r0 ++ pre, post, ?_, ?_, ?_, hpost⟩
      · rw [runCompletion, heq, List.append_assoc]
      · exact List.mem_append_right _ hmem
      · intro e he
        rcases List.mem_append.1 he with h1 | h2
        · rw [frameCompletionEvs] at h1
          rcases List.mem_append.1 h1 with h3 | h4
          · simp only [List.mem_cons, List.mem_singleton] at h3
            rcases h3 with rfl | h3
            · simp [IsInvokeFor]
            · rcases h3 with rfl | h3
              · simp [IsInvokeFor]
              · simp at h3
          · revert h4
            split
            · intro h4
              simp only [List.mem_singleton] at h4
              subst h4
              simp only [IsInvokeFor]
              omega
            · intro h4
              simp at h4
        · exact hpre e h2

/-- C7: in the engine's completion dispatch (modelled from the spec),
every render request that supplied a completion sink leads to exactly
one invocation of that sink — never zero, never more than one — with
that frame's `(releaseFenceFd, status)` pair, on an engine-internal
thread, and the invocation is placed strictly after the frame's
release fence has become valid. -/
theorem c7_completion_exactly_once (reqs : List FrameReq) (f : ℕ) (r : FrameReq)
    (hget : reqs.get? f = some r) (hsink : r.sinkSupplied = true) :
    ∃ pre post,
      runCompletion 0 reqs = pre ++ CompletionEv.invoke f r.fd r.status true :: post
      ∧ CompletionEv.fenceValid f ∈ pre
      ∧ (∀ e ∈ pre, ¬ IsInvokeFor f e)
      ∧ (∀ e ∈ post, ¬ IsInvokeFor f e) := by
  have h := runCompletion_invoke_unique reqs 0 f r hget hsink
  simpa using h

/-- Witness for `c7_completion_exactly_once` on a one-frame request
list with a sink, fence fd `5`, status `0`. -/
theorem c7_witness :
    ([⟨true, 5, 0⟩] : List FrameReq).get? 0 = some ⟨true, 5, 0⟩
  ∧ (⟨true, 5, 0⟩ : FrameReq).sinkSupplied = true
  ∧ ∃ pre post,
      runCompletion 0 [⟨true, 5, 0⟩]
          = pre ++ CompletionEv.invoke 0 5 0 true :: post
      ∧ CompletionEv.fenceValid 0 ∈ pre
      ∧ (∀ e ∈ pre, ¬ IsInvokeFor 0 e)
      ∧ (∀ e ∈ post, ¬ IsInvokeFor 0 e) :=
  ⟨rfl, rfl, c7_completion_exactly_once [⟨true, 5, 0⟩] 0 ⟨true, 5, 0⟩ rfl rfl⟩
